import Mathlib

/-!
Verification of the operation registry and metadata/execution framework of the
esa-climate-toolbox repository.  The repository material available consists of
documentation, change logs and notebooks; the Python implementation of the core
framework (`esa_climate_toolbox.core`: `OpMetaInfo`, `Operation`, the registry,
`execute_operations`, `Monitor`, and `esa_climate_toolbox.util.reporting`:
`FailureReporter`) is therefore modelled here from the specification's words,
faithful to the documented contracts (spec sections 3, 4.1-4.5, 6, 7, 8 and the
demonstration notebooks).
-/

namespace ECT

/-- Modelled from the spec: values passed to and returned by operations.  The
framework treats values opaquely; the model provides string values (as used in
`value_set` enumerations such as coregister's `method_us`), numbers, opaque
dataset handles, and the no-op monitor object the framework injects. -/
inductive Value where
  | vStr : String → Value
  | vNat : Nat → Value
  | vDataset : Nat → Value
  | noOpMonitor : Value
deriving DecidableEq, Repr

/-- Modelled from the spec: the parameter descriptor of one named input of an
operation: `{data_type, description, default_value?, position, value_set?}`
(spec section 3, `OpMetaInfo.inputs`). -/
structure InputDesc where
  data_type : String
  description : String
  default_value : Option Value
  position : Nat
  value_set : Option (List Value)
deriving DecidableEq, Repr

/-- Modelled from the spec: the descriptor of one named output:
`{data_type, description, add_history?}` (spec section 3, `OpMetaInfo.outputs`). -/
structure OutputDesc where
  data_type : String
  description : String
  add_history : Option Bool
deriving DecidableEq, Repr

/-- Modelled from the spec: the free-form descriptive header of an operation
(description text, version, tag set) — informational only. -/
structure Header where
  description : String
  tags : List String
  version : String
deriving DecidableEq, Repr

/-- Modelled from the spec: `OpMetaInfo`, the structured descriptor of an
operation's signature — qualified name, header, ordered named inputs, named
outputs, and the `has_monitor` flag (spec section 3). -/
structure OpMetaInfo where
  qualified_name : String
  header : Header
  inputs : List (String × InputDesc)
  outputs : List (String × OutputDesc)
  has_monitor : Bool
deriving DecidableEq, Repr

/-- Modelled from the spec: the `ValidationError` taxonomy entry — a
caller-supplied argument mapping fails metadata constraints (missing required
input, value outside `value_set`, unknown key); each error names the offending
parameter (spec sections 4.1 and 7). -/
inductive ValidationError where
  | missingInput : String → ValidationError
  | notInValueSet : String → ValidationError
  | unknownInput : String → ValidationError
deriving DecidableEq, Repr

/-- Modelled from the spec: an input descriptor pair whose supplied value
violates its `value_set` constraint (a present value matching a `value_set`
constraint must be a member of that set, spec section 4.1). -/
def valueSetViolated (args : List (String × Value)) (p : String × InputDesc) : Bool :=
  match p.2.value_set, List.lookup p.1 args with
  | some vs, some v => !(decide (v ∈ vs))
  | _, _ => false

/-- Modelled from the spec: an input descriptor pair that is required (no
default value) but not supplied in the argument mapping (spec section 4.1). -/
def requiredMissing (args : List (String × Value)) (p : String × InputDesc) : Bool :=
  p.2.default_value.isNone && (List.lookup p.1 args).isNone

/-- Modelled from the spec: a supplied key that is not a declared input
("no unexpected extra keys are supplied", spec section 4.1). -/
def unknownKey (m : OpMetaInfo) (q : String × Value) : Bool :=
  (m.inputs.find? (fun p => p.1 == q.1)).isNone

/-- Modelled from the spec: validation of a candidate argument mapping against
an `OpMetaInfo` succeeds only if every required input is present, every present
value matching a `value_set` constraint is a member of that set, and no
unexpected extra keys are supplied; it fails with a `ValidationError` naming
the offending key otherwise (spec section 4.1). -/
def OpMetaInfo.validate (m : OpMetaInfo) (args : List (String × Value)) :
    Except ValidationError Unit :=
  match (m.inputs.find? (requiredMissing args)).map Prod.fst with
  | some n => .error (.missingInput n)
  | none =>
    match (m.inputs.find? (valueSetViolated args)).map Prod.fst with
    | some n => .error (.notInValueSet n)
    | none =>
      match (args.find? (unknownKey m)).map Prod.fst with
      | some n => .error (.unknownInput n)
      | none => .ok ()

/-- Modelled from the spec: the defaulted argument mapping passed on to the
wrapped callable — each declared input receives the supplied value when
present, and its declared default value otherwise (spec section 4.2, step 3:
"the validated, defaulted arguments"). -/
def applyDefaults (m : OpMetaInfo) (args : List (String × Value)) :
    List (String × Value) :=
  m.inputs.filterMap (fun p =>
    match List.lookup p.1 args with
    | some v => some (p.1, v)
    | none => p.2.default_value.map (fun d => (p.1, d)))

/-- Modelled from the spec: an error surfaced by `Operation.call` — either a
validation failure (the wrapped callable is not invoked) or a failure raised by
the invocation of the wrapped callable itself (spec sections 4.2 and 7). -/
inductive CallError where
  | validation : ValidationError → CallError
  | invocation : String → CallError
deriving DecidableEq, Repr

/-- Modelled from the spec: `Operation` binds exactly one `OpMetaInfo` to one
underlying callable (spec section 3).  Fallible invocation is modelled by the
callable returning `Except`. -/
structure Operation where
  op_meta_info : OpMetaInfo
  wrapped : List (String × Value) → Except String Value

/-- Modelled from the spec: `operation.call(**kwargs)` — (1) validates kwargs
against the metadata; (2) if `has_monitor` is set and no monitor was supplied,
injects a default no-op monitor; (3) invokes the underlying callable with the
validated, defaulted arguments (spec section 4.2). -/
def Operation.call (op : Operation) (args : List (String × Value))
    (mon : Option Value) : Except CallError Value :=
  match op.op_meta_info.validate args with
  | .error e => .error (.validation e)
  | .ok _ =>
    let base := applyDefaults op.op_meta_info args
    let full :=
      if op.op_meta_info.has_monitor then
        base ++ [("monitor", mon.getD Value.noOpMonitor)]
      else base
    Except.mapError .invocation (op.wrapped full)

/-- Modelled from the spec: the process-wide registry state, a mapping from
qualified operation name to `Operation` populated by registration calls (spec
section 3).  Registrations are kept newest-first so that lookup resolves to the
latest registration under a name (last-writer-wins). -/
abbrev Registry := List (String × Operation)

/-- Modelled from the spec: `register(qualified_name, callable, ...)` stores an
`Operation`; re-registration under the same name replaces the prior entry
(last-writer-wins) and is not an error (spec sections 3 and 4.3). -/
def register (r : Registry) (name : String) (op : Operation) : Registry :=
  (name, op) :: r

/-- Modelled from the spec: `get_op(qualified_name)` returns the registered
`Operation` for the name, resolving to the latest registration, or nothing when
the name was never registered (spec sections 4.3 and 6). -/
def get_op (r : Registry) (name : String) : Option Operation :=
  (r.find? (fun p => p.1 == name)).map Prod.snd

/-- Modelled from the spec: insertion of a qualified name into a sorted
duplicate-free name list, used to produce the deterministic sorted sequence
returned by `list_operations` (spec section 4.3). -/
def insertName (x : String) : List String → List String
  | [] => [x]
  | y :: ys =>
    if x < y then x :: y :: ys
    else if x = y then y :: ys
    else y :: insertName x ys

/-- Modelled from the spec: `list_operations()` returns a deterministic,
sorted, duplicate-free sequence of the qualified names of all registered
operations (spec sections 4.3, 6 and 8). -/
def list_operations (r : Registry) : List String :=
  (r.map Prod.fst).foldr insertName []

/-- Modelled from the spec: the `MetadataError` taxonomy entry — a malformed or
inconsistent operation descriptor rejected at registration time (spec sections
4.1 and 7): an input position missing from the contiguous range or shared by
two inputs, or a duplicated input name. -/
inductive MetadataError where
  | duplicateInputName : MetadataError
  | badPositions : MetadataError
deriving DecidableEq, Repr

/-- Modelled from the spec: construction of an `OpMetaInfo` from a callable's
declared parameter list and supplementary descriptor data; it fails with a
`MetadataError` unless the input names are distinct and the input positions are
unique and contiguous from zero (spec sections 3 and 4.1). -/
def mkOpMetaInfo (qname : String) (hd : Header) (ins : List (String × InputDesc))
    (outs : List (String × OutputDesc)) (hm : Bool) : Except MetadataError OpMetaInfo :=
  if (ins.map Prod.fst).Nodup then
    if (ins.map (fun p => p.2.position)).Perm (List.range ins.length) then
      .ok ⟨qname, hd, ins, outs, hm⟩
    else .error .badPositions
  else .error .duplicateInputName

/-- Modelled from the spec: the state machine of a monitor,
`CREATED -> STARTED -> (PROGRESSING)* -> DONE` (spec section 4.5). -/
inductive MState where
  | created : MState
  | started : MState
  | done : MState
deriving DecidableEq, Repr

/-- Modelled from the spec: the `UsageError` taxonomy entry — a monitor
protocol violation: `progress` called before `start` or after `done` (spec
sections 4.5 and 7). -/
inductive UsageError where
  | progressBeforeStart : UsageError
  | progressAfterDone : UsageError
deriving DecidableEq, Repr

/-- Modelled from the spec: a `Monitor` progress tracker holding its declared
total work units, the units worked so far, and its state-machine state (spec
section 4.5). -/
structure Monitor where
  totalWork : Nat
  worked : Nat
  state : MState
deriving DecidableEq, Repr

/-- Modelled from the spec: a freshly created monitor, before `start` (spec
section 4.5, state `CREATED`). -/
def Monitor.new : Monitor := ⟨0, 0, .created⟩

/-- Modelled from the spec: `start(label, total_work)` initializes a monitor's
unit count and moves it to the `STARTED` state (spec section 4.5). -/
def Monitor.start (m : Monitor) (total : Nat) : Monitor :=
  { m with totalWork := total, worked := 0, state := .started }

/-- Modelled from the spec: `progress(amount)` advances by `amount` units,
clamping on overshoot (graceful saturation rather than failure); on reaching
the declared total the monitor is complete.  Calling `progress` before `start`
or after `done` fails with a `UsageError` (spec sections 4.5 and 8). -/
def Monitor.progress (m : Monitor) (amount : Nat) : Except UsageError Monitor :=
  match m.state with
  | .created => .error .progressBeforeStart
  | .done => .error .progressAfterDone
  | .started =>
    let w := min (m.worked + amount) m.totalWork
    .ok { m with worked := w,
                 state := if w = m.totalWork then .done else .started }

/-- Modelled from the spec: `done()` marks completion idempotently (spec
section 4.5). -/
def Monitor.markDone (m : Monitor) : Monitor := { m with state := .done }

/-- Modelled from the spec: the `ChainError` taxonomy entry — a step in a
multi-operation execution fails; it wraps the originating error with step
index/name context, and the outputs of prior successful steps are preserved
and returned alongside the error for diagnostic use (spec sections 4.4 and 7). -/
structure ChainError where
  stepIndex : Nat
  opName : String
  cause : CallError
  completed : List Value

/-- Modelled from the spec: the argument mapping of one chain step — the
incoming value is bound to the step's first positional input slot, with any
additional inputs supplied from the shared parameter context (spec section
4.4). -/
def chainArgs (m : OpMetaInfo) (input : Value) (shared : List (String × Value)) :
    List (String × Value) :=
  match m.inputs.find? (fun p => p.2.position == 0) with
  | some p =>
    (p.1, input) :: shared.filter (fun q =>
      !(q.1 == p.1) && (m.inputs.find? (fun i0 => i0.1 == q.1)).isSome)
  | none =>
    shared.filter (fun q => (m.inputs.find? (fun i0 => i0.1 == q.1)).isSome)

/-- Modelled from the spec: execution of one chain step — validation and
invocation of the operation on the chained input and shared context (spec
section 4.4). -/
def runStep (op : Operation) (input : Value) (shared : List (String × Value)) :
    Except CallError Value :=
  op.call (chainArgs op.op_meta_info input shared) none

/-- Modelled from the spec: the successful execution of a list of chain steps,
returning the outputs produced in order together with the last primary output
(or nothing when some step fails).  Used to state which outputs the failing
execution has already completed. -/
def runSteps (input : Value) (shared : List (String × Value)) :
    List Operation → Option (List Value × Value)
  | [] => some ([], input)
  | op :: rest =>
    match runStep op input shared with
    | .error _ => none
    | .ok out => (runSteps out shared rest).map (fun p => (out :: p.1, p.2))

/-- Modelled from the spec: the worker of `execute_operations`, threading the
prior step's primary output into the next step, accumulating completed outputs,
and failing fast with a `ChainError` identifying the failing step's index and
qualified name (spec section 4.4). -/
def executeFrom (idx : Nat) (acc : List Value) (input : Value)
    (shared : List (String × Value)) : List Operation → Except ChainError (List Value)
  | [] => .ok acc.reverse
  | op :: rest =>
    match runStep op input shared with
    | .error e => .error ⟨idx, op.op_meta_info.qualified_name, e, acc.reverse⟩
    | .ok out => executeFrom (idx + 1) (out :: acc) out shared rest

/-- Modelled from the spec: `execute_operations` applies each operation in
sequence — the first receives the initial dataset, each subsequent operation
receives the prior operation's primary output bound to its first positional
input slot, with additional inputs from a shared parameter context; it fails
fast with a `ChainError` and performs no rollback (spec section 4.4). -/
def execute_operations (input : Value) (shared : List (String × Value))
    (ops : List Operation) : Except ChainError (List Value) :=
  executeFrom 0 [] input shared ops

/-- Modelled from the spec: an unhandled exception as seen by the installed
failure-reporting hook — its class, its instance representation, and its
traceback as a list of frame descriptions (source file paths with context), as
displayed in the failure-reporting demonstration notebook. -/
structure ExceptionInfo where
  excClass : String
  excInstance : String
  traceback : List String
deriving DecidableEq, Repr

/-- Modelled from the spec: a failure report as received by the reporting
server in the demonstration notebook — the toolbox version, the exception
class, the exception instance, and the traceback. -/
structure Report where
  toolboxVersion : String
  excClass : String
  excInstance : String
  traceback : List String
deriving DecidableEq, Repr

/-- Modelled from the spec: whether one traceback frame involves the toolbox,
i.e. its frame description mentions the `esa_climate_toolbox` package (the
notebook's toolbox-raised exception has such a frame; the user-code
`ZeroDivisionError` has none). -/
def mentionsToolbox (frame : String) : Bool :=
  decide ("esa_climate_toolbox".data <:+: frame.data)

/-- Modelled from the spec: whether the toolbox is involved in an exception's
traceback — some frame mentions the toolbox package. -/
def involvesToolbox (tb : List String) : Bool :=
  tb.any mentionsToolbox

/-- Modelled from the spec: `FailureReporter` state — the reporting server URL
(passed as a parameter or taken from the environment variable
`ESA_CLIMATE_TOOLBOX_FAILURE_REPORTING_SERVER_URL`) and whether reporting has
been activated with the user's consent. -/
structure FailureReporter where
  serverUrl : String
  activated : Bool
deriving DecidableEq, Repr

/-- Modelled from the spec: construction of a `FailureReporter` — the server
URL can be passed as a parameter or, failing that, taken from the environment
variable; the reporter starts deactivated, since the user must explicitly
consent before reporting can be activated. -/
def FailureReporter.make (urlParam envUrl : Option String) : Option FailureReporter :=
  match urlParam with
  | some u => some ⟨u, false⟩
  | none => envUrl.map (fun u => ⟨u, false⟩)

/-- Modelled from the spec: `FailureReporter.activate()` asks the user for
explicit consent ("Please enter YES below to consent to reporting."); only the
affirmative answer `YES` activates reporting, any other answer leaves the
reporter deactivated. -/
def FailureReporter.activate (rep : FailureReporter) (consentAnswer : String) :
    FailureReporter :=
  if consentAnswer = "YES" then { rep with activated := true } else rep

/-- Modelled from the spec: the unhandled-exception hook installed by an
activated `FailureReporter` — it sends a report (toolbox version, exception
class, exception instance, traceback) to the server exactly when reporting is
activated and the toolbox is involved in the exception's traceback; otherwise
nothing is sent. -/
def FailureReporter.handle (rep : FailureReporter) (version : String)
    (e : ExceptionInfo) : Option Report :=
  if rep.activated && involvesToolbox e.traceback then
    some ⟨version, e.excClass, e.excInstance, e.traceback⟩
  else none

/-- Modelled from the spec: the structured metadata document form — a nested
mapping of strings, numbers, booleans, lists and sub-mappings, matching the
shape displayed for `get_op_meta_info('coregister')` in the Finding Operations
notebook (spec sections 3 and 6). -/
inductive Doc where
  | dStr : String → Doc
  | dNat : Nat → Doc
  | dBool : Bool → Doc
  | dList : List Doc → Doc
  | dMap : List (String × Doc) → Doc

/-- Modelled from the spec: serialization of a single value into the document
form (string and numeric values appear literally; structured values appear as
tagged sub-mappings). -/
def encodeValue : Value → Doc
  | .vStr s => .dStr s
  | .vNat n => .dNat n
  | .vDataset i => .dMap [("dataset", .dNat i)]
  | .noOpMonitor => .dMap [("monitor", .dBool true)]

/-- Modelled from the spec: reconstruction of a single value from its document
form. -/
def decodeValue : Doc → Option Value
  | .dStr s => some (.vStr s)
  | .dNat n => some (.vNat n)
  | .dMap [("dataset", .dNat i)] => some (.vDataset i)
  | .dMap [("monitor", .dBool true)] => some .noOpMonitor
  | _ => none

/-- Decoding of each element of a serialized list, failing when any single
element fails to decode. -/
def mapDecode {α β : Type} (dec : α → Option β) : List α → Option (List β)
  | [] => some []
  | d :: t =>
    match dec d with
    | none => none
    | some a => (mapDecode dec t).map (fun l => a :: l)

/-- Modelled from the spec: reconstruction of a value enumeration (a
`value_set`) from its document form. -/
def decodeValueList : Doc → Option (List Value)
  | .dList l => mapDecode decodeValue l
  | _ => none

/-- Modelled from the spec: serialization of an optional descriptor field — the
key is simply absent from the document when the field is absent (as
`default_value` and `value_set` are for coregister's `ds_primary` input in the
notebook). -/
def optField (k : String) (enc : α → Doc) : Option α → List (String × Doc)
  | some a => [(k, enc a)]
  | none => []

/-- Modelled from the spec: the string stored in a document mapping under a
key. -/
def getStr (fields : List (String × Doc)) (k : String) : Option String :=
  match List.lookup k fields with
  | some (.dStr s) => some s
  | _ => none

/-- Modelled from the spec: the number stored in a document mapping under a
key. -/
def getNat (fields : List (String × Doc)) (k : String) : Option Nat :=
  match List.lookup k fields with
  | some (.dNat n) => some n
  | _ => none

/-- Modelled from the spec: the boolean stored in a document mapping under a
key. -/
def getBool (fields : List (String × Doc)) (k : String) : Option Bool :=
  match List.lookup k fields with
  | some (.dBool b) => some b
  | _ => none

/-- Modelled from the spec: an optional field of a document mapping — absence
of the key decodes to an absent field, while a present but malformed value
fails the decode. -/
def getOpt (fields : List (String × Doc)) (k : String) (dec : Doc → Option α) :
    Option (Option α) :=
  match List.lookup k fields with
  | none => some none
  | some d => (dec d).map some

/-- Modelled from the spec: serialization of an input parameter descriptor into
the document form shown in the notebook:
`{data_type, description, position, default_value?, value_set?}`. -/
def encodeInput (d : InputDesc) : Doc :=
  .dMap ([("data_type", .dStr d.data_type),
          ("description", .dStr d.description),
          ("position", .dNat d.position)]
    ++ optField "default_value" encodeValue d.default_value
    ++ optField "value_set" (fun vs => .dList (vs.map encodeValue)) d.value_set)

/-- Modelled from the spec: reconstruction of an input parameter descriptor
from its document form. -/
def decodeInput : Doc → Option InputDesc
  | .dMap fields =>
    match getStr fields "data_type", getStr fields "description",
          getNat fields "position", getOpt fields "default_value" decodeValue,
          getOpt fields "value_set" decodeValueList with
    | some dt, some ds, some p, some dv, some vs => some ⟨dt, ds, dv, p, vs⟩
    | _, _, _, _, _ => none
  | _ => none

/-- Modelled from the spec: serialization of an output descriptor into the
document form shown in the notebook: `{data_type, description, add_history?}`. -/
def encodeOutput (d : OutputDesc) : Doc :=
  .dMap ([("data_type", .dStr d.data_type),
          ("description", .dStr d.description)]
    ++ optField "add_history" Doc.dBool d.add_history)

/-- Modelled from the spec: reconstruction of an output descriptor from its
document form. -/
def decodeOutput : Doc → Option OutputDesc
  | .dMap fields =>
    match getStr fields "data_type", getStr fields "description",
          getOpt fields "add_history" (fun d =>
            match d with | .dBool b => some b | _ => none) with
    | some dt, some ds, some ah => some ⟨dt, ds, ah⟩
    | _, _, _ => none
  | _ => none

/-- Modelled from the spec: serialization of the descriptive header into the
document form shown in the notebook: `{description, tags, version}`. -/
def encodeHeader (h : Header) : Doc :=
  .dMap [("description", .dStr h.description),
         ("tags", .dList (h.tags.map Doc.dStr)),
         ("version", .dStr h.version)]

/-- Modelled from the spec: reconstruction of one tag from its document form. -/
def decodeTag : Doc → Option String
  | .dStr s => some s
  | _ => none

/-- Modelled from the spec: reconstruction of the descriptive header from its
document form. -/
def decodeHeader : Doc → Option Header
  | .dMap fields =>
    match getStr fields "description",
          List.lookup "tags" fields, getStr fields "version" with
    | some ds, some (.dList tl), some v =>
      (mapDecode decodeTag tl).map (fun tags => ⟨ds, tags, v⟩)
    | _, _, _ => none
  | _ => none

/-- Modelled from the spec: serialization of a named-descriptor mapping
(`inputs` or `outputs`) into a document sub-mapping keyed by parameter name. -/
def encodeNamed (enc : α → Doc) (l : List (String × α)) : Doc :=
  .dMap (l.map (fun p => (p.1, enc p.2)))

/-- Modelled from the spec: reconstruction of a named-descriptor mapping from a
document sub-mapping. -/
def decodeNamed (dec : Doc → Option α) : Doc → Option (List (String × α))
  | .dMap l => mapDecode (fun p => (dec p.2).map (fun a => (p.1, a))) l
  | _ => none

/-- Modelled from the spec: serialization of an `OpMetaInfo` into its
structured document form, as returned by `get_op_meta_info` and displayed in
the Finding Operations notebook: `{qualified_name, header, inputs, outputs,
has_monitor}`. -/
def encodeOpMetaInfo (m : OpMetaInfo) : Doc :=
  .dMap [("qualified_name", .dStr m.qualified_name),
         ("header", encodeHeader m.header),
         ("inputs", encodeNamed encodeInput m.inputs),
         ("outputs", encodeNamed encodeOutput m.outputs),
         ("has_monitor", .dBool m.has_monitor)]

/-- Modelled from the spec: reconstruction of an `OpMetaInfo` descriptor from
its structured document form. -/
def decodeOpMetaInfo (d : Doc) : Option OpMetaInfo :=
  match d with
  | .dMap fields =>
    match getStr fields "qualified_name",
          (List.lookup "header" fields).bind decodeHeader,
          (List.lookup "inputs" fields).bind (decodeNamed decodeInput),
          (List.lookup "outputs" fields).bind (decodeNamed decodeOutput),
          getBool fields "has_monitor" with
    | some qn, some hd, some ins, some outs, some hm => some ⟨qn, hd, ins, outs, hm⟩
    | _, _, _, _, _ => none
  | _ => none

/-- Modelled from the spec: `get_op_meta_info(qualified_name)` returns the
operation's structured metadata document (spec section 6). -/
def get_op_meta_info (r : Registry) (name : String) : Option Doc :=
  (get_op r name).map (fun op => encodeOpMetaInfo op.op_meta_info)

/-! Helper lemmas shared by several claim theorems. -/

/-- A list whose find succeeds somewhere yields a found element satisfying the
predicate and belonging to the list. -/
theorem find_of_sat {α : Type} {p : α → Bool} {l : List α} {a : α}
    (ha : a ∈ l) (hpa : p a = true) :
    ∃ b, l.find? p = some b ∧ p b = true ∧ b ∈ l := by
  have hs : (l.find? p).isSome := List.find?_isSome.mpr ⟨a, ha, hpa⟩
  obtain ⟨b, hb⟩ := Option.isSome_iff_exists.mp hs
  exact ⟨b, hb, List.find?_some hb, List.mem_of_find?_eq_some hb⟩

/-- Membership in the sorted insertion of a name. -/
theorem mem_insertName (a x : String) (l : List String) :
    a ∈ insertName x l ↔ a = x ∨ a ∈ l := by
  induction l with
  | nil => simp [insertName]
  | cons y ys ih =>
    simp only [insertName]
    split
    · simp [List.mem_cons]
    · split
      · next heq =>
        subst heq
        constructor
        · exact fun hb => Or.inr hb
        · intro hb
          rcases hb with hb | hb
          · exact hb ▸ List.mem_cons_self _ _
          · exact hb
      · simp only [List.mem_cons, ih]
        tauto

/-- Sorted insertion preserves strict sortedness of a name list. -/
theorem sorted_insertName (x : String) (l : List String)
    (h : l.Sorted (· < ·)) : (insertName x l).Sorted (· < ·) := by
  induction l with
  | nil => simp [insertName]
  | cons y ys ih =>
    rw [List.sorted_cons] at h
    simp only [insertName]
    split
    · next hlt =>
      rw [List.sorted_cons]
      refine ⟨?_, List.sorted_cons.mpr h⟩
      intro b hb
      rcases List.mem_cons.mp hb with hb | hb
      · exact hb ▸ hlt
      · exact lt_trans hlt (h.1 b hb)
    · split
      · exact List.sorted_cons.mpr h
      · next hnlt hne =>
        rw [List.sorted_cons]
        refine ⟨?_, ih h.2⟩
        intro b hb
        rcases (mem_insertName b x ys).mp hb with hb | hb
        · subst hb
          exact lt_of_le_of_ne (le_of_not_lt hnlt) (fun hc => hne hc.symm)
        · exact h.1 b hb

/-- The deterministic sorted name sequence is sorted. -/
theorem sorted_foldr_insertName (l : List String) :
    (l.foldr insertName []).Sorted (· < ·) := by
  induction l with
  | nil => simp
  | cons a t ih => exact sorted_insertName a _ ih

/-- The deterministic sorted name sequence has the same members as its input. -/
theorem mem_foldr_insertName (a : String) (l : List String) :
    a ∈ l.foldr insertName [] ↔ a ∈ l := by
  induction l with
  | nil => simp
  | cons b t ih =>
    simp only [List.foldr_cons, mem_insertName, List.mem_cons, ih]

/-- A name is a key of the registry exactly when `get_op` resolves it. -/
theorem mem_keys_iff_get_op (r : Registry) (a : String) :
    a ∈ r.map Prod.fst ↔ ∃ op, get_op r a = some op := by
  constructor
  · intro ha
    obtain ⟨p, hp, hpa⟩ := List.mem_map.mp ha
    obtain ⟨b, hb, _, _⟩ :=
      find_of_sat (p := fun q => q.1 == a) hp (by simp [hpa])
    exact ⟨b.2, by simp [get_op, hb]⟩
  · intro ⟨op, hop⟩
    unfold get_op at hop
    obtain ⟨b, hb, _⟩ := Option.map_eq_some'.mp hop
    have hba := List.find?_some hb
    simp only [beq_iff_eq] at hba
    have := List.mem_of_find?_eq_some hb
    exact List.mem_map.mpr ⟨b, this, hba⟩

/-- The concrete metadata of the `coregister` operation, transcribed from the
structured document displayed by `get_op_meta_info('coregister')` in the
Finding Operations notebook (descriptions abbreviated). -/
def coregisterMeta : OpMetaInfo :=
  { qualified_name := "esa_climate_toolbox.ops.coregistration.coregister"
    header := ⟨"Perform coregistration of two datasets",
               ["geometric", "coregistration"], "1.1"⟩
    inputs :=
      [("ds_primary", ⟨"xarray.core.dataset.Dataset",
          "The dataset whose grid is used for resampling", none, 0, none⟩),
       ("ds_replica", ⟨"xarray.core.dataset.Dataset",
          "The dataset that will be resampled", none, 1, none⟩),
       ("method_us", ⟨"str", "Interpolation method to use for upsampling.",
          some (.vStr "linear"), 2,
          some [.vStr "nearest", .vStr "linear"]⟩),
       ("method_ds", ⟨"str", "Interpolation method to use for downsampling.",
          some (.vStr "mean"), 3,
          some [.vStr "first", .vStr "last", .vStr "mean", .vStr "mode",
                .vStr "var", .vStr "std"]⟩)]
    outputs :=
      [("return", ⟨"xarray.core.dataset.Dataset",
          "The replica dataset resampled on the grid of the primary",
          some true⟩)]
    has_monitor := true }

/-- A sample registered operation used as a concrete first registration. -/
def sampleOpA : Operation :=
  ⟨{ qualified_name := "pkg.f_v1", header := ⟨"first", [], "1"⟩,
     inputs := [("ds", ⟨"Dataset", "input", none, 0, none⟩)],
     outputs := [("return", ⟨"Dataset", "output", none⟩)],
     has_monitor := false },
   fun _ => .ok (.vNat 1)⟩

/-- A sample registered operation used as a concrete second registration under
the same name. -/
def sampleOpB : Operation :=
  ⟨{ qualified_name := "pkg.f_v2", header := ⟨"second", [], "2"⟩,
     inputs := [("ds", ⟨"Dataset", "input", none, 0, none⟩)],
     outputs := [("return", ⟨"Dataset", "output", none⟩)],
     has_monitor := false },
   fun _ => .ok (.vNat 2)⟩

/-! Claim theorems. -/

/-- C2: for every state of the registry, `list_operations()` returns a
deterministic, sorted, duplicate-free sequence whose elements are exactly the
qualified names of all operations currently registered (a name is listed
exactly when `get_op` resolves it, i.e. it was ever registered; a later
registration under the same name supersedes the operation but keeps the name
registered). -/
theorem list_operations_sorted_nodup_complete (r : Registry) :
    (list_operations r).Sorted (· < ·) ∧ (list_operations r).Nodup ∧
    ∀ a, (a ∈ list_operations r ↔ ∃ op, get_op r a = some op) := by
  have hsorted := sorted_foldr_insertName (r.map Prod.fst)
  refine ⟨hsorted, hsorted.nodup, ?_⟩
  intro a
  rw [list_operations, mem_foldr_insertName]
  exact mem_keys_iff_get_op r a

/-- C4: for every monitor started with `total_work = 10`, `progress 15` does
not raise an error and leaves the monitor in state `DONE` (the overshoot is
clamped to the remaining total), and a subsequent `progress 1` raises
`UsageError`; more generally, calling `progress` before `start` or after
`done` always raises `UsageError`. -/
theorem monitor_overshoot_clamps_then_done (m : Monitor) :
    (m.state = .started → m.totalWork = 10 →
      m.progress 15 = .ok ⟨10, 10, .done⟩ ∧
      Monitor.progress ⟨10, 10, .done⟩ 1 = .error .progressAfterDone) ∧
    (m.state = .created → ∀ a, m.progress a = .error .progressBeforeStart) ∧
    (m.state = .done → ∀ a, m.progress a = .error .progressAfterDone) := by
  obtain ⟨t, w, s⟩ := m
  refine ⟨?_, ?_, ?_⟩
  · intro hs ht
    simp only at hs ht
    subst hs
    subst ht
    have hmin : min (w + 15) 10 = 10 := by omega
    exact ⟨by simp [Monitor.progress, hmin], rfl⟩
  · intro hs a
    simp only at hs
    subst hs
    rfl
  · intro hs a
    simp only at hs
    subst hs
    rfl

/-- C5: registering twice under the same qualified name raises no error, makes
subsequent `get_op` lookups resolve to the second registration, and leaves the
first `Operation` object unreachable through the registry (provided it was not
also registered under another name and differs from the second). -/
theorem reregistration_last_write_wins (r : Registry) (n : String)
    (op1 op2 : Operation) (h1 : op1 ≠ op2)
    (h2 : ∀ s, get_op r s ≠ some op1) :
    get_op (register (register r n op1) n op2) n = some op2 ∧
    ∀ s, get_op (register (register r n op1) n op2) s ≠ some op1 := by
  constructor
  · simp [get_op, register, List.find?]
  · intro s
    by_cases hs : n = s
    · subst hs
      simp only [get_op, register, List.find?, beq_self_eq_true]
      intro hc
      simp only [Option.map_some'] at hc
      exact h1 (Option.some.inj hc).symm
    · have hbeq : (n == s) = false := by simp [hs]
      simp only [get_op, register, List.find?, hbeq]
      exact h2 s

/-- Witness for C4 at a concrete monitor: started with total work 10,
`progress 15` completes it, the follow-up `progress 1` and a `progress` before
`start` both raise `UsageError`. -/
theorem monitor_overshoot_witness :
    (Monitor.mk 10 0 .started).progress 15 = .ok ⟨10, 10, .done⟩ ∧
    Monitor.progress ⟨10, 10, .done⟩ 1 = .error .progressAfterDone ∧
    (Monitor.mk 7 0 .created).progress 3 = .error .progressBeforeStart :=
  ⟨((monitor_overshoot_clamps_then_done ⟨10, 0, .started⟩).1 rfl rfl).1,
   ((monitor_overshoot_clamps_then_done ⟨10, 0, .started⟩).1 rfl rfl).2,
   (monitor_overshoot_clamps_then_done ⟨7, 0, .created⟩).2.1 rfl 3⟩

/-- Witness for C5 at a concrete registry: registering `pkg.f` twice resolves
to the second operation and the first one is unreachable. -/
theorem reregistration_witness :
    get_op (register (register [] "pkg.f" sampleOpA) "pkg.f" sampleOpB) "pkg.f"
      = some sampleOpB ∧
    ∀ s, get_op (register (register [] "pkg.f" sampleOpA) "pkg.f" sampleOpB) s
      ≠ some sampleOpA :=
  reregistration_last_write_wins [] "pkg.f" sampleOpA sampleOpB
    (fun h => absurd
      (congrArg (fun o => o.op_meta_info.qualified_name) h) (by decide))
    (fun _ h => Option.noConfusion h)

/-- C1: for every operation declaring an input `x` with a `value_set`
constraint, calling it with a value for `x` outside that set (all required
inputs being supplied and `x` being the offending parameter) raises a
`ValidationError` naming `x`, whatever wrapped callable and monitor are
given — in particular the wrapped callable is never invoked, since the result
is the same error for every callable. -/
theorem value_set_violation_blocks_call
    (m : OpMetaInfo) (args : List (String × Value)) (x : String) (d : InputDesc)
    (v : Value) (vs : List Value)
    (hmem : (x, d) ∈ m.inputs) (hvs : d.value_set = some vs)
    (harg : List.lookup x args = some v) (hnot : v ∉ vs)
    (hreq : ∀ p ∈ m.inputs, p.2.default_value = none →
      (List.lookup p.1 args).isSome = true)
    (huniq : ∀ p ∈ m.inputs, valueSetViolated args p = true → p.1 = x) :
    ∀ (f : List (String × Value) → Except String Value) (mon : Option Value),
      Operation.call ⟨m, f⟩ args mon
        = .error (.validation (.notInValueSet x)) := by
  intro f mon
  have hmiss : m.inputs.find? (requiredMissing args) = none := by
    rw [List.find?_eq_none]
    intro p _hp
    cases hd : p.2.default_value with
    | none =>
      have h2 := hreq p _hp hd
      cases hl : List.lookup p.1 args with
      | none =>
        rw [hl] at h2
        simp at h2
      | some w => simp [requiredMissing, hd, hl]
    | some dv => simp [requiredMissing, hd]
  have hviol : valueSetViolated args (x, d) = true := by
    unfold valueSetViolated
    simp [hvs, harg, hnot]
  obtain ⟨b, hb, hpb, hbm⟩ := find_of_sat hmem hviol
  have hbx : b.1 = x := huniq b hbm hpb
  unfold Operation.call OpMetaInfo.validate
  rw [hmiss, hb]
  simp [hbx]

/-- Witness for C1 at the concrete coregister metadata: calling with
`method_us = "c"`, which is outside the `value_set` `{nearest, linear}`,
yields the `ValidationError` naming `method_us` for an arbitrary callable. -/
theorem value_set_violation_witness :
    Operation.call ⟨coregisterMeta, fun _ => Except.ok (Value.vNat 0)⟩
        [("ds_primary", .vDataset 1), ("ds_replica", .vDataset 2),
         ("method_us", .vStr "c")] none
      = .error (.validation (.notInValueSet "method_us")) :=
  value_set_violation_blocks_call coregisterMeta
    [("ds_primary", .vDataset 1), ("ds_replica", .vDataset 2),
     ("method_us", .vStr "c")]
    "method_us"
    ⟨"str", "Interpolation method to use for upsampling.",
      some (.vStr "linear"), 2, some [.vStr "nearest", .vStr "linear"]⟩
    (.vStr "c") [.vStr "nearest", .vStr "linear"]
    (by decide) rfl rfl (by decide) (by decide) (by decide)
    (fun _ => Except.ok (Value.vNat 0)) none

/-- C6: for every successfully constructed `OpMetaInfo`, the positions of its
inputs are pairwise distinct and form the contiguous range `0..n-1` (stated as
a permutation of `List.range n`), and validation fails with a `ValidationError`
whenever some input without a default value is not supplied. -/
theorem opmetainfo_positions_contiguous_required_enforced
    (qn : String) (hd : Header) (ins : List (String × InputDesc))
    (outs : List (String × OutputDesc)) (hm : Bool) (m : OpMetaInfo)
    (hok : mkOpMetaInfo qn hd ins outs hm = .ok m) :
    ((m.inputs.map (fun p => p.2.position)).Nodup ∧
     (m.inputs.map (fun p => p.2.position)).Perm
       (List.range m.inputs.length)) ∧
    ∀ (args : List (String × Value)) (p : String × InputDesc),
      p ∈ m.inputs → p.2.default_value = none →
      List.lookup p.1 args = none →
      ∃ y, m.validate args = .error (.missingInput y) := by
  constructor
  · unfold mkOpMetaInfo at hok
    split at hok
    · split at hok
      · next hperm =>
        cases hok
        exact ⟨hperm.nodup_iff.mpr (List.nodup_range _), hperm⟩
      · exact Except.noConfusion hok
    · exact Except.noConfusion hok
  · intro args p hp hdef hlook
    have hpm : requiredMissing args p = true := by
      simp [requiredMissing, hdef, hlook]
    obtain ⟨b, hb, _, _⟩ := find_of_sat hp hpm
    refine ⟨b.1, ?_⟩
    unfold OpMetaInfo.validate
    simp [hb]

/-- Witness for C6 at the concrete coregister metadata: the constructor
accepts it (positions 0..3), and a call supplying only `ds_primary` fails
validation because the required `ds_replica` is missing. -/
theorem opmetainfo_positions_witness :
    (mkOpMetaInfo coregisterMeta.qualified_name coregisterMeta.header
        coregisterMeta.inputs coregisterMeta.outputs coregisterMeta.has_monitor
      = .ok coregisterMeta) ∧
    ((coregisterMeta.inputs.map (fun p => p.2.position)).Nodup ∧
     (coregisterMeta.inputs.map (fun p => p.2.position)).Perm
       (List.range coregisterMeta.inputs.length)) ∧
    ∃ y, coregisterMeta.validate [("ds_primary", .vDataset 1)]
      = .error (.missingInput y) :=
  have hok : mkOpMetaInfo coregisterMeta.qualified_name coregisterMeta.header
      coregisterMeta.inputs coregisterMeta.outputs coregisterMeta.has_monitor
      = .ok coregisterMeta := by
    unfold mkOpMetaInfo
    rw [if_pos (by decide), if_pos (by decide)]
  have h := opmetainfo_positions_contiguous_required_enforced
    coregisterMeta.qualified_name coregisterMeta.header coregisterMeta.inputs
    coregisterMeta.outputs coregisterMeta.has_monitor coregisterMeta hok
  ⟨hok, h.1,
   h.2 [("ds_primary", .vDataset 1)]
     ("ds_replica", ⟨"xarray.core.dataset.Dataset",
        "The dataset that will be resampled", none, 1, none⟩)
     (by decide) rfl rfl⟩

/-- C7: for every operation whose metadata has `has_monitor` set, calling
`operation.call` without supplying a monitor injects the default no-op monitor
and invokes the wrapped callable with the validated, defaulted arguments; the
caller is never required to pass a monitor — validation succeeds without one
and the call proceeds to the invocation. -/
theorem default_monitor_injected (m : OpMetaInfo)
    (f : List (String × Value) → Except String Value)
    (args : List (String × Value))
    (hm : m.has_monitor = true) (hv : m.validate args = .ok ()) :
    Operation.call ⟨m, f⟩ args none =
      Except.mapError CallError.invocation
        (f (applyDefaults m args ++ [("monitor", Value.noOpMonitor)])) := by
  unfold Operation.call
  rw [hv]
  simp [hm]

/-- Witness for C7 at the concrete coregister metadata (which declares
`has_monitor`), called with only the two required datasets and no monitor: the
wrapped callable receives the defaulted arguments plus the injected no-op
monitor. -/
theorem default_monitor_injected_witness :
    Operation.call
        ⟨coregisterMeta, fun a => Except.ok (Value.vNat a.length)⟩
        [("ds_primary", .vDataset 1), ("ds_replica", .vDataset 2)] none
      = Except.mapError CallError.invocation
          (Except.ok (Value.vNat
            ((applyDefaults coregisterMeta
                [("ds_primary", .vDataset 1), ("ds_replica", .vDataset 2)]
              ++ [("monitor", Value.noOpMonitor)]).length))) :=
  default_monitor_injected coregisterMeta
    (fun a => Except.ok (Value.vNat a.length))
    [("ds_primary", .vDataset 1), ("ds_replica", .vDataset 2)]
    rfl rfl

/-- The chain execution worker fails fast: when the first `i` steps succeed
and step `i` fails, it reports the failing step's offset index and qualified
name, the wrapped cause, and exactly the accumulated plus previously produced
outputs. -/
theorem executeFrom_fail (shared : List (String × Value)) :
    ∀ (ops : List Operation) (i : Nat) (hi : i < ops.length)
      (input : Value) (idx : Nat) (acc outs : List Value) (last : Value)
      (e : CallError),
      runSteps input shared (List.take i ops) = some (outs, last) →
      runStep (ops.get ⟨i, hi⟩) last shared = .error e →
      executeFrom idx acc input shared ops =
        .error ⟨idx + i, (ops.get ⟨i, hi⟩).op_meta_info.qualified_name, e,
                acc.reverse ++ outs⟩ := by
  intro ops
  induction ops with
  | nil => intro i hi; exact absurd hi (by simp)
  | cons op rest ih =>
    intro i hi input idx acc outs last e hpre herr
    cases i with
    | zero =>
      simp only [List.take_zero, runSteps] at hpre
      obtain ⟨houts, hlast⟩ : ([] : List Value) = outs ∧ input = last := by
        have := Option.some.inj hpre
        exact ⟨congrArg Prod.fst this, congrArg Prod.snd this⟩
      subst houts
      subst hlast
      simp only [List.get] at herr
      simp only [executeFrom, herr]
      simp
    | succ j =>
      simp only [List.take_succ_cons, runSteps] at hpre
      cases hstep : runStep op input shared with
      | error e0 => rw [hstep] at hpre; exact Option.noConfusion hpre
      | ok out =>
        rw [hstep] at hpre
        dsimp only at hpre
        cases hrest : runSteps out shared (List.take j rest) with
        | none => rw [hrest] at hpre; exact Option.noConfusion hpre
        | some p =>
          rw [hrest] at hpre
          simp only [Option.map_some'] at hpre
          obtain ⟨houts, hlast⟩ :
              (out :: p.1) = outs ∧ p.2 = last := by
            have := Option.some.inj hpre
            exact ⟨congrArg Prod.fst this, congrArg Prod.snd this⟩
          subst houts
          subst hlast
          simp only [List.get] at herr
          simp only [executeFrom, hstep]
          have hj : j < rest.length := by
            simpa using Nat.lt_of_succ_lt_succ hi
          have happ := ih j hj out (idx + 1) (out :: acc) p.1 p.2 e
            (by rw [hrest]) herr
          rw [happ]
          have hidx : idx + 1 + j = idx + (j + 1) := by omega
          have hcomp : (out :: acc).reverse ++ p.1
              = acc.reverse ++ (out :: p.1) := by simp
          rw [hidx, hcomp]
          rfl

/-- C3: for every chain execution in which some step `i` fails validation or
invocation (all steps before `i` succeeding), `execute_operations` raises a
`ChainError` that reports the failing step's index `i` and the failing
operation's qualified name, and the outputs produced by all steps before `i`
remain accessible to the caller inside the error (no rollback of completed
steps). -/
theorem execute_operations_fail_fast (ops : List Operation) (input : Value)
    (shared : List (String × Value)) (i : Nat) (hi : i < ops.length)
    (outs : List Value) (last : Value) (e : CallError)
    (hpre : runSteps input shared (List.take i ops) = some (outs, last))
    (herr : runStep (ops.get ⟨i, hi⟩) last shared = .error e) :
    execute_operations input shared ops =
      .error ⟨i, (ops.get ⟨i, hi⟩).op_meta_info.qualified_name, e, outs⟩ := by
  have := executeFrom_fail shared ops i hi input 0 [] outs last e hpre herr
  rw [execute_operations, this]
  simp

/-- A sample first chain step producing a dataset. -/
def chainOpA : Operation :=
  ⟨{ qualified_name := "esa_climate_toolbox.ops.load", header := ⟨"load", [], "1"⟩,
     inputs := [("ds", ⟨"Dataset", "input dataset", none, 0, none⟩)],
     outputs := [("return", ⟨"Dataset", "loaded dataset", none⟩)],
     has_monitor := false },
   fun _ => .ok (.vDataset 10)⟩

/-- A sample second chain step whose `method` input carries a `value_set`
constraint, so that an out-of-set shared parameter fails its validation. -/
def chainOpB : Operation :=
  ⟨{ qualified_name := "esa_climate_toolbox.ops.resample", header := ⟨"resample", [], "1"⟩,
     inputs := [("ds", ⟨"Dataset", "input dataset", none, 0, none⟩),
                ("method", ⟨"str", "resampling method", none, 1,
                  some [.vStr "nearest", .vStr "linear"]⟩)],
     outputs := [("return", ⟨"Dataset", "resampled dataset", none⟩)],
     has_monitor := false },
   fun _ => .ok (.vDataset 20)⟩

/-- A sample third chain step. -/
def chainOpC : Operation :=
  ⟨{ qualified_name := "esa_climate_toolbox.ops.store", header := ⟨"store", [], "1"⟩,
     inputs := [("ds", ⟨"Dataset", "input dataset", none, 0, none⟩)],
     outputs := [("return", ⟨"Dataset", "stored dataset", none⟩)],
     has_monitor := false },
   fun _ => .ok (.vDataset 30)⟩

/-- Witness for C3 at a concrete chain of three operations whose second step
fails validation (shared `method = "cubic"` is outside the `value_set`): the
`ChainError` reports step index 1 and the second operation's qualified name,
and the first step's output `vDataset 10` stays accessible in the error. -/
theorem execute_operations_fail_fast_witness :
    execute_operations (.vDataset 1) [("method", .vStr "cubic")]
        [chainOpA, chainOpB, chainOpC]
      = .error ⟨1, "esa_climate_toolbox.ops.resample",
                .validation (.notInValueSet "method"), [.vDataset 10]⟩ :=
  execute_operations_fail_fast [chainOpA, chainOpB, chainOpC]
    (.vDataset 1) [("method", .vStr "cubic")] 1 (by decide)
    [.vDataset 10] (.vDataset 10) (.validation (.notInValueSet "method"))
    rfl rfl

/-- Reconstructing a value from its serialized form recovers it. -/
theorem decode_encodeValue (v : Value) : decodeValue (encodeValue v) = some v := by
  cases v <;> rfl

/-- Element-wise decoding inverts element-wise encoding. -/
theorem mapDecode_map {α β : Type} (dec : α → Option β) (enc : β → α)
    (h : ∀ b, dec (enc b) = some b) (l : List β) :
    mapDecode dec (l.map enc) = some l := by
  induction l with
  | nil => rfl
  | cons a t ih => simp [mapDecode, h, ih]

/-- Reconstructing a header from its serialized form recovers it. -/
theorem decodeHeader_encodeHeader (h : Header) :
    decodeHeader (encodeHeader h) = some h := by
  obtain ⟨ds, tags, v⟩ := h
  simp [encodeHeader, decodeHeader, getStr, List.lookup,
    mapDecode_map decodeTag Doc.dStr (fun b => rfl)]

/-- Reconstructing an input descriptor from its serialized form recovers it. -/
theorem decodeInput_encodeInput (d : InputDesc) :
    decodeInput (encodeInput d) = some d := by
  obtain ⟨dt, ds, dv, p, vs⟩ := d
  cases dv <;> cases vs <;>
    simp [encodeInput, decodeInput, optField, getStr, getNat, getOpt,
      List.lookup, decode_encodeValue, decodeValueList,
      mapDecode_map decodeValue encodeValue decode_encodeValue]

/-- Reconstructing an output descriptor from its serialized form recovers it. -/
theorem decodeOutput_encodeOutput (d : OutputDesc) :
    decodeOutput (encodeOutput d) = some d := by
  obtain ⟨dt, ds, ah⟩ := d
  cases ah <;>
    simp [encodeOutput, decodeOutput, optField, getStr, getOpt, List.lookup]

/-- Reconstructing a named-descriptor mapping from its serialized form
recovers it, provided each descriptor round-trips. -/
theorem decodeNamed_encodeNamed {α : Type} (enc : α → Doc) (dec : Doc → Option α)
    (hround : ∀ a, dec (enc a) = some a) (l : List (String × α)) :
    decodeNamed dec (encodeNamed enc l) = some l := by
  unfold encodeNamed decodeNamed
  exact mapDecode_map _ _ (fun b => by simp [hround]) l

/-- Reconstructing an `OpMetaInfo` from its serialized document form recovers
it entirely. -/
theorem decodeOpMetaInfo_encodeOpMetaInfo (m : OpMetaInfo) :
    decodeOpMetaInfo (encodeOpMetaInfo m) = some m := by
  obtain ⟨qn, hd, ins, outs, hm⟩ := m
  simp [encodeOpMetaInfo, decodeOpMetaInfo, getStr, getBool, List.lookup,
    decodeHeader_encodeHeader,
    decodeNamed_encodeNamed encodeInput decodeInput decodeInput_encodeInput,
    decodeNamed_encodeNamed encodeOutput decodeOutput decodeOutput_encodeOutput]

/-- C8: serializing an `OpMetaInfo` to its structured document form (as
returned by `get_op_meta_info`) and reconstructing a descriptor from that
document yields an `OpMetaInfo` with the same input names, output names,
positions and value sets as the original — the round-trip loses no documented
field. -/
theorem op_meta_info_document_roundtrip (m : OpMetaInfo) :
    ∃ m', decodeOpMetaInfo (encodeOpMetaInfo m) = some m' ∧
      m'.inputs.map Prod.fst = m.inputs.map Prod.fst ∧
      m'.outputs.map Prod.fst = m.outputs.map Prod.fst ∧
      m'.inputs.map (fun p => p.2.position)
        = m.inputs.map (fun p => p.2.position) ∧
      m'.inputs.map (fun p => p.2.value_set)
        = m.inputs.map (fun p => p.2.value_set) :=
  ⟨m, decodeOpMetaInfo_encodeOpMetaInfo m, rfl, rfl, rfl, rfl⟩

/-- C9: with an activated `FailureReporter` installed, an unhandled exception
is sent to the reporting server exactly when the toolbox is involved in its
traceback; an exception not involving the toolbox is never reported, and a
sent report contains the toolbox version, the exception class, the exception
instance and the traceback. -/
theorem failure_reported_iff_toolbox_involved (rep : FailureReporter)
    (version : String) (e : ExceptionInfo) (hact : rep.activated = true) :
    (involvesToolbox e.traceback = true →
      rep.handle version e
        = some ⟨version, e.excClass, e.excInstance, e.traceback⟩) ∧
    (involvesToolbox e.traceback = false → rep.handle version e = none) := by
  constructor
  · intro hin
    simp [FailureReporter.handle, hact, hin]
  · intro hout
    simp [FailureReporter.handle, hact, hout]

/-- Witness for C9 at the two concrete exceptions of the failure-reporting
notebook: the toolbox-raised test exception is reported with version, class,
instance and traceback, while the user-code `ZeroDivisionError` is not
reported. -/
theorem failure_reported_witness :
    FailureReporter.handle ⟨"http://localhost:9898", true⟩ "1.3.3.dev0"
        ⟨"Exception",
         "Exception('This is an error to test the reporting functionality.')",
         ["File IPython/core/interactiveshell.py, line 3577, in run_code",
          "File esa_climate_toolbox/util/reporting.py, line 89, in raise_error"]⟩
      = some ⟨"1.3.3.dev0", "Exception",
          "Exception('This is an error to test the reporting functionality.')",
          ["File IPython/core/interactiveshell.py, line 3577, in run_code",
           "File esa_climate_toolbox/util/reporting.py, line 89, in raise_error"]⟩ ∧
    FailureReporter.handle ⟨"http://localhost:9898", true⟩ "1.3.3.dev0"
        ⟨"ZeroDivisionError", "division by zero",
         ["File ipykernel_259405/2859698634.py, line 1, in module"]⟩
      = none :=
  ⟨(failure_reported_iff_toolbox_involved ⟨"http://localhost:9898", true⟩
      "1.3.3.dev0"
      ⟨"Exception",
       "Exception('This is an error to test the reporting functionality.')",
       ["File IPython/core/interactiveshell.py, line 3577, in run_code",
        "File esa_climate_toolbox/util/reporting.py, line 89, in raise_error"]⟩
      rfl).1 (by decide),
   (failure_reported_iff_toolbox_involved ⟨"http://localhost:9898", true⟩
      "1.3.3.dev0"
      ⟨"ZeroDivisionError", "division by zero",
       ["File ipykernel_259405/2859698634.py, line 1, in module"]⟩
      rfl).2 (by decide)⟩

/-- C10: `FailureReporter.activate()` never enables reporting without explicit
consent — a freshly constructed reporter (its URL taken from the parameter or
from the environment variable) starts deactivated, an answer other than `YES`
to the consent prompt leaves the activation state unchanged, and a deactivated
reporter never sends any report to the configured server. -/
theorem no_report_without_consent (urlParam envUrl : Option String)
    (rep rep0 : FailureReporter) (answer version : String)
    (e : ExceptionInfo) :
    (FailureReporter.make urlParam envUrl = some rep0 →
      rep0.activated = false) ∧
    (answer ≠ "YES" →
      (rep.activate answer).activated = rep.activated) ∧
    (rep.activated = false → rep.handle version e = none) := by
  refine ⟨?_, ?_, ?_⟩
  · intro hmk
    cases urlParam with
    | some u =>
      simp [FailureReporter.make] at hmk
      rw [← hmk]
    | none =>
      cases envUrl with
      | some u =>
        simp [FailureReporter.make] at hmk
        rw [← hmk]
      | none => exact Option.noConfusion hmk
  · intro hne
    simp [FailureReporter.activate, hne]
  · intro hoff
    simp [FailureReporter.handle, hoff]

/-- Witness for C10 at concrete data: a reporter built from the environment
variable URL starts deactivated, answering `no` to the consent prompt does not
activate it, and in that state the toolbox test exception is not reported. -/
theorem no_report_without_consent_witness :
    (FailureReporter.mk "http://localhost:9898" false).activated = false ∧
    ((FailureReporter.mk "http://localhost:9898" false).activate "no").activated
      = (FailureReporter.mk "http://localhost:9898" false).activated ∧
    FailureReporter.handle ⟨"http://localhost:9898", false⟩ "1.3.3.dev0"
        ⟨"Exception", "test",
         ["File esa_climate_toolbox/util/reporting.py, line 89"]⟩
      = none :=
  ⟨(no_report_without_consent none (some "http://localhost:9898")
      ⟨"http://localhost:9898", false⟩ ⟨"http://localhost:9898", false⟩
      "no" "1.3.3.dev0"
      ⟨"Exception", "test",
       ["File esa_climate_toolbox/util/reporting.py, line 89"]⟩).1 rfl,
   (no_report_without_consent none (some "http://localhost:9898")
      ⟨"http://localhost:9898", false⟩ ⟨"http://localhost:9898", false⟩
      "no" "1.3.3.dev0"
      ⟨"Exception", "test",
       ["File esa_climate_toolbox/util/reporting.py, line 89"]⟩).2.1
     (by decide),
   (no_report_without_consent none (some "http://localhost:9898")
      ⟨"http://localhost:9898", false⟩ ⟨"http://localhost:9898", false⟩
      "no" "1.3.3.dev0"
      ⟨"Exception", "test",
       ["File esa_climate_toolbox/util/reporting.py, line 89"]⟩).2.2 rfl⟩

end ECT
